import Mathlib

/-!
# CPU idle driver for the Allwinner A83t (drivers/cpuidle/cpuidle-sun8i-a83t.c)

A shallow embedding of the routines of the driver and of its canonical
idle-state table:

* `allwinner_a83t_core_sleep_finisher`, the callback run after context save;
* `allwinner_a83t_core_sleep`, the entry routine of the deep idle state;
* `allwinner_a83t_idle_driver`, the canonical two-state table;
* `allwinner_a83t_cpuidle_probe`, the boot-time registration pass.

Every routine returns its C result together with the calls it makes, in
program order. Kernel services the file only calls (the idle framework, the
allocator, the context-save primitive, the cluster subsystem) are not part of
the driver; their models carry a doc comment that says what they stand for.
-/

namespace A83t

/-! ## Data model -/

/-- Entry routines a state descriptor can point to. -/
inductive EnterFn
  | allwinner_a83t_core_sleep
  deriving DecidableEq, Repr

/-- Flag bits of a state descriptor, kept symbolic. -/
inductive StateFlag
  | CPUIDLE_FLAG_TIMER_STOP
  deriving DecidableEq, Repr

/-- The explicit fields of a `struct cpuidle_state` initialiser. -/
structure StateFields where
  enter : EnterFn
  exit_latency : Nat
  target_residency : Nat
  power_usage : Int
  flags : List StateFlag
  name : String
  desc : String
  deriving DecidableEq, Repr

/-- A state descriptor: either the header constant `ARM_CPUIDLE_WFI_STATE`
(asm/cpuidle.h, kept unexpanded as the source writes it) or an explicit
initialiser. -/
inductive cpuidle_state
  | ARM_CPUIDLE_WFI_STATE
  | init (f : StateFields)
  deriving DecidableEq, Repr

/-- Owner of a driver table. -/
inductive Module
  | THIS_MODULE
  deriving DecidableEq, Repr

/-- The fields of `struct cpuidle_driver` the file sets. `cpumask = none` is the
NULL pointer of the static initialiser. -/
structure cpuidle_driver where
  name : String
  owner : Module
  states : List cpuidle_state
  state_count : Int
  safe_state_index : Int
  cpumask : Option (List Nat)
  deriving DecidableEq, Repr

/-- The field of `struct cpuidle_device` the file sets. -/
structure cpuidle_device where
  cpu : Nat
  deriving DecidableEq, Repr

/-- The canonical table, lines 76-93. -/
def allwinner_a83t_idle_driver : cpuidle_driver :=
  { name := "allwinner_a83t_idle"
    owner := Module.THIS_MODULE
    states :=
      [ cpuidle_state.ARM_CPUIDLE_WFI_STATE,
        cpuidle_state.init
          { enter := EnterFn.allwinner_a83t_core_sleep
            exit_latency := 3000
            target_residency := 10000
            power_usage := 500
            flags := [StateFlag.CPUIDLE_FLAG_TIMER_STOP]
            name := "C1"
            desc := "Core power down" } ]
    state_count := 2
    safe_state_index := 0
    cpumask := none }

/-! ## Idle path -/

/-- Callbacks that can be handed to `cpu_suspend`. -/
inductive SuspendFn
  | allwinner_a83t_core_sleep_finisher
  deriving DecidableEq, Repr

/-- Code addresses that can be registered as a resume vector. -/
inductive ResumeAddr
  | cpu_resume
  deriving DecidableEq, Repr

/-- Calls made on the idle path, in the order they are made. -/
inductive Event
  | read_cpuid_mpidr (value : Nat)
  | pr_info (fmt : String) (cpu cluster : Nat) (func : String)
  | local_irq_disable
  | local_irq_enable
  | cpu_do_idle
  | cpu_pm_enter
  | cpu_pm_exit
  | cpu_suspend (arg : Nat) (fn : SuspendFn)
  | callback (fn : SuspendFn) (arg : Nat)
  | mcpm_set_entry_vector (cpu cluster : Nat) (ptr : ResumeAddr)
  | mcpm_cpu_suspend
  | mcpm_cpu_powered_up
  deriving DecidableEq, Repr

/-- The executing core as the idle path sees it: the content of its affinity
register, whether the cluster subsystem really cuts power when asked to, and the
status the context-save primitive hands back after a power-up through the resume
vector. -/
structure Core where
  mpidr : Nat
  power_lost : Bool
  resume_status : Int

/-- Reading the affinity register into an `unsigned int`. -/
def read_cpuid_mpidr (c : Core) : Nat :=
  c.mpidr % 2 ^ 32

/-- Modelled from the spec: the header macro `MPIDR_AFFINITY_LEVEL` (asm/cputype.h)
is not under src/. The spec says the pair (cluster_id, core_id) is derived from the
affinity register; affinity level `level` is taken as byte `level` of the register,
the ARM layout of MPIDR. -/
def MPIDR_AFFINITY_LEVEL (mpidr level : Nat) : Nat :=
  (mpidr / 2 ^ (8 * level)) % 256

/-- Modelled from the spec: `mcpm_cpu_suspend` (arch/arm/common/mcpm_entry.c) is not
under src/. The suspend request may not return locally: it returns exactly when the
core did not lose power. -/
def mcpm_cpu_suspend (c : Core) : Bool × List Event :=
  (!c.power_lost, [Event.mcpm_cpu_suspend])

/-- The callback of lines 25-41. The result is `none` when the suspend request does
not return (the core lost power), otherwise the status 1 of line 39. -/
def allwinner_a83t_core_sleep_finisher (c : Core) (_arg : Nat) : Option Int × List Event :=
  let mpidr := read_cpuid_mpidr c
  let cluster := MPIDR_AFFINITY_LEVEL mpidr 1
  let cpu := MPIDR_AFFINITY_LEVEL mpidr 0
  let t := [Event.read_cpuid_mpidr mpidr,
            Event.pr_info "CPU: %d CLS: %d FNC: %s: Core sleep suspend" cpu cluster
              "allwinner_a83t_core_sleep_finisher",
            Event.mcpm_set_entry_vector cpu cluster ResumeAddr.cpu_resume]
  let r := mcpm_cpu_suspend c
  if r.1 then (some 1, t ++ r.2) else (none, t ++ r.2)

/-- Calling a callback by name. -/
def SuspendFn.run : SuspendFn → Core → Nat → Option Int × List Event
  | SuspendFn.allwinner_a83t_core_sleep_finisher => A83t.allwinner_a83t_core_sleep_finisher

/-- Modelled from the spec: the context-save primitive `cpu_suspend`
(arch/arm/kernel/suspend.c) is not under src/. It performs the architectural
suspend, invokes the supplied callback after the save, and returns the status of
the callback on the non-power-loss path; after a power loss the core comes back
through the resume vector and the primitive returns `resume_status`. -/
def cpu_suspend (c : Core) (arg : Nat) (fn : SuspendFn) : Int × List Event :=
  let r := fn.run c arg
  let t := [Event.cpu_suspend arg fn, Event.callback fn arg] ++ r.2
  match r.1 with
  | some status => (status, t)
  | none => (c.resume_status, t)

/-- The entry routine of lines 43-74. -/
def allwinner_a83t_core_sleep (c : Core) (dev : cpuidle_device) (_drv : cpuidle_driver)
    (idx : Int) : Int × List Event :=
  let mpidr := read_cpuid_mpidr c
  let cluster := MPIDR_AFFINITY_LEVEL mpidr 1
  let cpu := MPIDR_AFFINITY_LEVEL mpidr 0
  let t := [Event.read_cpuid_mpidr mpidr, Event.local_irq_disable]
  let t :=
    if dev.cpu = 0 then
      t ++ [Event.cpu_do_idle]
    else
      t ++ [Event.pr_info "CPU: %d CLS: %d FNC: %s: Core sleep" cpu cluster
              "allwinner_a83t_core_sleep",
            Event.cpu_pm_enter]
        ++ (cpu_suspend c 0 SuspendFn.allwinner_a83t_core_sleep_finisher).2
        ++ [Event.pr_info "CPU: %d CLS: %d FNC: %s: Power up" cpu cluster
              "allwinner_a83t_core_sleep",
            Event.mcpm_cpu_powered_up,
            Event.cpu_pm_exit]
  (idx, t ++ [Event.local_irq_enable])

/-- Calls the entry routine makes itself and that act on the system: interrupt
masking, the trivial wait, the power-management notifications, the context-save
call and the powered-up notification. Register reads, log lines and whatever runs
inside the context-save primitive are left out. -/
def Event.entry_level : Event → Bool
  | Event.local_irq_disable => true
  | Event.local_irq_enable => true
  | Event.cpu_do_idle => true
  | Event.cpu_pm_enter => true
  | Event.cpu_pm_exit => true
  | Event.cpu_suspend _ _ => true
  | Event.mcpm_cpu_powered_up => true
  | _ => false

/-- Is the event a call of the context-save primitive. -/
def Event.is_cpu_suspend : Event → Bool
  | Event.cpu_suspend _ _ => true
  | _ => false

/-- Is the event an invocation of a post-save callback. -/
def Event.is_callback : Event → Bool
  | Event.callback _ _ => true
  | _ => false

/-- Is the event a resume-vector registration. -/
def Event.is_set_entry_vector : Event → Bool
  | Event.mcpm_set_entry_vector _ _ _ => true
  | _ => false

/-- Is the event a cluster-suspend request. -/
def Event.is_mcpm_cpu_suspend : Event → Bool
  | Event.mcpm_cpu_suspend => true
  | _ => false

/-- Event `a` occurs in `t` at a position strictly before an occurrence of `b`. -/
def strictly_before (a b : Event) (t : List Event) : Prop :=
  ∃ i j : Nat, i < j ∧ t[i]? = some a ∧ t[j]? = some b

/-- The trace of the trivial-wait path, seen at entry level. -/
def trivial_wait_calls : List Event :=
  [Event.local_irq_disable, Event.cpu_do_idle, Event.local_irq_enable]

/-- The trace of the deep-sleep handshake, seen at entry level. -/
def handshake_calls : List Event :=
  [Event.local_irq_disable, Event.cpu_pm_enter,
   Event.cpu_suspend 0 SuspendFn.allwinner_a83t_core_sleep_finisher,
   Event.mcpm_cpu_powered_up, Event.cpu_pm_exit, Event.local_irq_enable]

/-! ## Boot path -/

/-- The allocation-failure code; `ENOMEM` is 12 in the errno headers. -/
def ENOMEM : Int := 12

/-- What an allocated block holds. -/
inductive Obj
  | drv (d : cpuidle_driver)
  | dev (d : cpuidle_device)
  deriving DecidableEq, Repr

/-- Calls made by the probe, in the order they are made. A pointer is an
`Option Nat`, `none` being NULL. -/
inductive BootEvent
  | mcpm_is_available (result : Bool)
  | pr_info (fmt : String) (arg : Int)
  | pr_err (fmt : String) (arg : Int)
  | kmemdup (result : Option Nat)
  | cpuidle_register_driver (drv : Nat) (ret : Int)
  | kzalloc (result : Option Nat)
  | cpuidle_register_device (dev : Nat) (ret : Int)
  | per_cpu_cpuidle_devices (cpu : Nat) (result : Option Nat)
  | cpuidle_unregister_device (dev : Option Nat)
  | cpuidle_get_driver (result : Option Nat)
  | cpuidle_unregister_driver (drv : Option Nat)
  | kfree (p : Option Nat)
  deriving DecidableEq, Repr

/-- The part of the kernel the probe acts on: allocated memory (`next` is the next
fresh address, `mem` the live blocks), the per-core driver and device pointers of the
idle framework, and the calls made so far. -/
structure Kernel where
  next : Nat
  mem : Nat → Option Obj
  cpuidle_drivers : Nat → Option Nat
  cpuidle_devices : Nat → Option Nat
  trace : List BootEvent

/-- The kernel at boot, before the probe: nothing allocated, nothing registered. -/
def Kernel.boot : Kernel :=
  { next := 1
    mem := fun _ => none
    cpuidle_drivers := fun _ => none
    cpuidle_devices := fun _ => none
    trace := [] }

/-- What the probe cannot decide itself: the number of possible cores (numbered from
0), the core that runs the initcall, the answer of `mcpm_is_available`, and for each
core whether the two allocations succeed and which code the idle framework returns
for the driver and for the device (0 accepts). -/
structure BootEnv where
  nr_cpu_ids : Nat
  this_cpu : Nat
  mcpm_available : Bool
  kmemdup_ok : Nat → Bool
  register_driver_ret : Nat → Int
  kzalloc_ok : Nat → Bool
  register_device_ret : Nat → Int

/-- Appending a call to the trace. -/
def Kernel.log (k : Kernel) (e : BootEvent) : Kernel :=
  { k with trace := k.trace ++ [e] }

/-- Modelled from the spec: the allocator call `kmemdup` (mm/util.c) is not under
src/. Cloning fails only under memory exhaustion (`ok = false`, NULL); otherwise a
fresh block holds a copy of the source table. -/
def kmemdup (ok : Bool) (src : cpuidle_driver) (k : Kernel) : Option Nat × Kernel :=
  if ok then
    (some k.next,
      { k with
        next := k.next + 1
        mem := fun a => if a = k.next then some (Obj.drv src) else k.mem a
        trace := k.trace ++ [BootEvent.kmemdup (some k.next)] })
  else
    (none, k.log (BootEvent.kmemdup none))

/-- Modelled from the spec: the allocator call `kzalloc` (linux/slab.h) is not under
src/. On success a fresh block holds a zeroed device record. -/
def kzalloc (ok : Bool) (k : Kernel) : Option Nat × Kernel :=
  if ok then
    (some k.next,
      { k with
        next := k.next + 1
        mem := fun a => if a = k.next then some (Obj.dev { cpu := 0 }) else k.mem a
        trace := k.trace ++ [BootEvent.kzalloc (some k.next)] })
  else
    (none, k.log (BootEvent.kzalloc none))

/-- Modelled from the spec: `kfree` (mm/slab) is not under src/. It releases the
block; releasing NULL does nothing. -/
def kfree (p : Option Nat) (k : Kernel) : Kernel :=
  match p with
  | none => k.log (BootEvent.kfree none)
  | some a =>
    { k with
      mem := fun b => if b = a then none else k.mem b
      trace := k.trace ++ [BootEvent.kfree (some a)] }

/-- The mask holding the single core `cpu`. -/
def cpumask_of (cpu : Nat) : List Nat := [cpu]

/-- The store `drv->cpumask = mask` of line 112. -/
def set_cpumask (drv : Nat) (mask : List Nat) (k : Kernel) : Kernel :=
  match k.mem drv with
  | some (Obj.drv d) =>
    { k with mem := fun a => if a = drv then some (Obj.drv { d with cpumask := some mask })
                             else k.mem a }
  | _ => k

/-- The store `dev->cpu = cpu` of line 125. -/
def set_dev_cpu (dev : Nat) (cpu : Nat) (k : Kernel) : Kernel :=
  match k.mem dev with
  | some (Obj.dev _) =>
    { k with mem := fun a => if a = dev then some (Obj.dev { cpu := cpu }) else k.mem a }
  | _ => k

/-- The affinity mask of the driver stored at `drv`; empty when there is none. -/
def driver_mask (k : Kernel) (drv : Nat) : List Nat :=
  match k.mem drv with
  | some (Obj.drv d) => d.cpumask.getD []
  | _ => []

/-- Modelled from the spec: `cpuidle_register_driver` (drivers/cpuidle/driver.c) is
not under src/. The idle framework holds one driver per core; `verdict` is the code
it answers with. On 0 the driver becomes the driver of every core of its affinity
mask; on any other code nothing is registered. -/
def cpuidle_register_driver (verdict : Int) (drv : Nat) (k : Kernel) : Int × Kernel :=
  if verdict = 0 then
    (0,
      { k with
        cpuidle_drivers := fun c => if c ∈ driver_mask k drv then some drv
                                    else k.cpuidle_drivers c
        trace := k.trace ++ [BootEvent.cpuidle_register_driver drv 0] })
  else
    (verdict, k.log (BootEvent.cpuidle_register_driver drv verdict))

/-- Modelled from the spec: `cpuidle_unregister_driver` (drivers/cpuidle/driver.c) is
not under src/. The driver stops being the driver of the cores of its mask. The spec
does not say what the framework does with NULL; it is taken to do nothing. -/
def cpuidle_unregister_driver (drv : Option Nat) (k : Kernel) : Kernel :=
  match drv with
  | none => k.log (BootEvent.cpuidle_unregister_driver none)
  | some p =>
    { k with
      cpuidle_drivers := fun c =>
        if c ∈ driver_mask k p ∧ k.cpuidle_drivers c = some p then none
        else k.cpuidle_drivers c
      trace := k.trace ++ [BootEvent.cpuidle_unregister_driver (some p)] }

/-- Modelled from the spec: `cpuidle_get_driver` (drivers/cpuidle/driver.c) is not
under src/. The spec has the framework hold one driver per core and the rollback
fetch the already-registered driver. The call passes no core, so the driver it
fetches is the one held for the core that runs the call (`this_cpu`), NULL when that
core has none. -/
def cpuidle_get_driver (env : BootEnv) (k : Kernel) : Option Nat × Kernel :=
  (k.cpuidle_drivers env.this_cpu,
    k.log (BootEvent.cpuidle_get_driver (k.cpuidle_drivers env.this_cpu)))

/-- The core number stored in the device record at `dev`. -/
def device_cpu (k : Kernel) (dev : Nat) : Option Nat :=
  match k.mem dev with
  | some (Obj.dev d) => some d.cpu
  | _ => none

/-- Modelled from the spec: `cpuidle_register_device` (drivers/cpuidle/cpuidle.c) is
not under src/. The idle framework holds one device per core; `verdict` is the code
it answers with. On 0 the record becomes the device of the core it names. -/
def cpuidle_register_device (verdict : Int) (dev : Nat) (k : Kernel) : Int × Kernel :=
  if verdict = 0 then
    (0,
      { k with
        cpuidle_devices := fun c => if device_cpu k dev = some c then some dev
                                    else k.cpuidle_devices c
        trace := k.trace ++ [BootEvent.cpuidle_register_device dev 0] })
  else
    (verdict, k.log (BootEvent.cpuidle_register_device dev verdict))

/-- Modelled from the spec: `cpuidle_unregister_device` (drivers/cpuidle/cpuidle.c)
is not under src/. A registered record stops being the device of its core; NULL and
unregistered records are left alone. -/
def cpuidle_unregister_device (dev : Option Nat) (k : Kernel) : Kernel :=
  match dev with
  | none => k.log (BootEvent.cpuidle_unregister_device none)
  | some p =>
    { k with
      cpuidle_devices := fun c =>
        if device_cpu k p = some c ∧ k.cpuidle_devices c = some p then none
        else k.cpuidle_devices c
      trace := k.trace ++ [BootEvent.cpuidle_unregister_device (some p)] }

/-- The per-core variable read `per_cpu(cpuidle_devices, cpu)` of line 143. -/
def per_cpu_cpuidle_devices (cpu : Nat) (k : Kernel) : Option Nat × Kernel :=
  (k.cpuidle_devices cpu,
    k.log (BootEvent.per_cpu_cpuidle_devices cpu (k.cpuidle_devices cpu)))

/-- The body of the loop of lines 103-135 for one core. The result is `none` when
the iteration ran to its end and `some ret` when it left through `goto out_fail`. -/
def probe_cpu (env : BootEnv) (cpu : Nat) (k : Kernel) : Option Int × Kernel :=
  match kmemdup (env.kmemdup_ok cpu) allwinner_a83t_idle_driver k with
  | (none, k) => (some (-ENOMEM), k)
  | (some drv, k) =>
    let k := set_cpumask drv (cpumask_of cpu) k
    match cpuidle_register_driver (env.register_driver_ret cpu) drv k with
    | (ret, k) =>
      if ret ≠ 0 then
        (some ret, k.log (BootEvent.pr_err "Failed to register cpuidle driver %d\n" ret))
      else
        match kzalloc (env.kzalloc_ok cpu) k with
        | (none, k) => (some (-ENOMEM), k)
        | (some dev, k) =>
          let k := set_dev_cpu dev cpu k
          match cpuidle_register_device (env.register_device_ret cpu) dev k with
          | (ret, k) =>
            if ret ≠ 0 then
              (some ret,
                k.log (BootEvent.pr_err "Failed to register cpuidle device for CPU %d\n" cpu))
            else
              (none,
                k.log (BootEvent.pr_info "Successfully register idle driver for CPU%d\n" cpu))

/-- The loop `while (--cpu >= 0)` of lines 141-149, entered with the loop variable
at `cpu`. -/
def out_fail (env : BootEnv) : Nat → Kernel → Kernel
  | 0, k => k
  | cpu + 1, k =>
    let (dev, k) := per_cpu_cpuidle_devices cpu k
    let k := cpuidle_unregister_device dev k
    let k := kfree dev k
    let (drv, k) := cpuidle_get_driver env k
    let k := cpuidle_unregister_driver drv k
    let k := kfree drv k
    out_fail env cpu k

/-- The loop `for_each_possible_cpu` of lines 103-135 with `n` cores left to visit,
the next one being `cpu` (the possible cores are numbered from 0 without gaps),
followed by lines 137-139 when it runs to its end and by the rollback of lines
141-150 when an iteration fails. -/
def for_each_possible_cpu (env : BootEnv) : Nat → Nat → Kernel → Int × Kernel
  | 0, _, k =>
    (0, k.log (BootEvent.pr_info "Idle states count: %d" allwinner_a83t_idle_driver.state_count))
  | n + 1, cpu, k =>
    match probe_cpu env cpu k with
    | (none, k) => for_each_possible_cpu env n (cpu + 1) k
    | (some ret, k) => (ret, out_fail env cpu k)

/-- The initcall of lines 95-151. -/
def allwinner_a83t_cpuidle_probe (env : BootEnv) (k : Kernel) : Int × Kernel :=
  let k := k.log (BootEvent.mcpm_is_available env.mcpm_available)
  let k := k.log (BootEvent.pr_info "MCPM availability: %d" (if env.mcpm_available then 1 else 0))
  for_each_possible_cpu env env.nr_cpu_ids 0 k

/-- The cores below `n` that have a registered driver, with its address. -/
def registered_drivers (n : Nat) (k : Kernel) : List (Nat × Nat) :=
  (List.range n).filterMap (fun c => (k.cpuidle_drivers c).map (fun p => (c, p)))

/-- The cores below `n` that have a registered device, with its address. -/
def registered_devices (n : Nat) (k : Kernel) : List (Nat × Nat) :=
  (List.range n).filterMap (fun c => (k.cpuidle_devices c).map (fun p => (c, p)))

/-- The blocks allocated and not released, with their content. -/
def live_blocks (k : Kernel) : List (Nat × Obj) :=
  (List.range k.next).filterMap (fun a => (k.mem a).map (fun o => (a, o)))

/-- Every step of the registration of core `c` succeeds. -/
def core_ok (env : BootEnv) (c : Nat) : Bool :=
  env.kmemdup_ok c && decide (env.register_driver_ret c = 0) &&
    env.kzalloc_ok c && decide (env.register_device_ret c = 0)

/-- The clone the probe makes for core `c`: the canonical table bound to `c`. -/
def clone_for (c : Nat) : cpuidle_driver :=
  { allwinner_a83t_idle_driver with cpumask := some (cpumask_of c) }

/-- The code core `c` leaves the loop with: that of its first failing step, and 0
when every step succeeds. -/
def step_code (env : BootEnv) (c : Nat) : Int :=
  if env.kmemdup_ok c = false then -ENOMEM
  else if env.register_driver_ret c ≠ 0 then env.register_driver_ret c
  else if env.kzalloc_ok c = false then -ENOMEM
  else env.register_device_ret c

/-- The kernel after the cores below `n` were registered from boot: core `c` has its
clone at address `2 * c + 1` and its device record at `2 * c + 2`, both registered,
and nothing else is allocated or registered. -/
def Registered (n : Nat) (k : Kernel) : Prop :=
  k.next = 2 * n + 1 ∧
  (∀ c, k.cpuidle_drivers c = if c < n then some (2 * c + 1) else none) ∧
  (∀ c, k.cpuidle_devices c = if c < n then some (2 * c + 2) else none) ∧
  (∀ c, c < n → k.mem (2 * c + 1) = some (Obj.drv (clone_for c)) ∧
    k.mem (2 * c + 2) = some (Obj.dev { cpu := c })) ∧
  (∀ a, 2 * n + 1 ≤ a → k.mem a = none) ∧ k.mem 0 = none

/-- The four steps of the registration of one core, in program order. -/
inductive Step
  | clone
  | register_driver
  | device_record
  | register_device
  deriving DecidableEq, Repr

/-- An environment of `n` cores, the initcall on core 0, where exactly one step fails:
step `s` of core `k`. `code` is what the idle framework answers when `s` is one of its
two registrations. -/
def BootEnv.failing (n k : Nat) (s : Step) (code : Int) : BootEnv :=
  { nr_cpu_ids := n
    this_cpu := 0
    mcpm_available := true
    kmemdup_ok := fun c => !(c = k && s = Step.clone)
    register_driver_ret := fun c => if c = k ∧ s = Step.register_driver then code else 0
    kzalloc_ok := fun c => !(c = k && s = Step.device_record)
    register_device_ret := fun c => if c = k ∧ s = Step.register_device then code else 0 }

/-- An environment of `n` cores, the initcall on core 0, where every step succeeds. -/
def BootEnv.all_ok (n : Nat) : BootEnv :=
  { nr_cpu_ids := n
    this_cpu := 0
    mcpm_available := true
    kmemdup_ok := fun _ => true
    register_driver_ret := fun _ => 0
    kzalloc_ok := fun _ => true
    register_device_ret := fun _ => 0 }

/-! ## Theorems: idle path -/

/-- C4 fails as stated: on core 0 of cluster 1 (the affinity register gives core_id 0)
with the device record of logical core 4 and index 1, the entry routine returns 1 but
makes no trivial wait and invokes each routine of the handshake once: cpu_pm_enter,
cpu_suspend, the finisher, mcpm_set_entry_vector, mcpm_cpu_suspend,
mcpm_cpu_powered_up and cpu_pm_exit. -/
theorem core_sleep_core_id_zero_handshake :
    MPIDR_AFFINITY_LEVEL (read_cpuid_mpidr ⟨0x80000100, true, 0⟩) 0 = 0 ∧
    (allwinner_a83t_core_sleep ⟨0x80000100, true, 0⟩ ⟨4⟩ allwinner_a83t_idle_driver 1).1 = 1 ∧
    (allwinner_a83t_core_sleep ⟨0x80000100, true, 0⟩ ⟨4⟩ allwinner_a83t_idle_driver 1).2 ≠
      [Event.read_cpuid_mpidr 0x80000100, Event.local_irq_disable, Event.cpu_do_idle,
       Event.local_irq_enable] ∧
    (allwinner_a83t_core_sleep ⟨0x80000100, true, 0⟩ ⟨4⟩ allwinner_a83t_idle_driver 1).2.count
        Event.cpu_do_idle = 0 ∧
    (allwinner_a83t_core_sleep ⟨0x80000100, true, 0⟩ ⟨4⟩ allwinner_a83t_idle_driver 1).2.count
        Event.cpu_pm_enter = 1 ∧
    (allwinner_a83t_core_sleep ⟨0x80000100, true, 0⟩ ⟨4⟩ allwinner_a83t_idle_driver 1).2.countP
        Event.is_cpu_suspend = 1 ∧
    (allwinner_a83t_core_sleep ⟨0x80000100, true, 0⟩ ⟨4⟩ allwinner_a83t_idle_driver 1).2.countP
        Event.is_callback = 1 ∧
    (allwinner_a83t_core_sleep ⟨0x80000100, true, 0⟩ ⟨4⟩ allwinner_a83t_idle_driver 1).2.countP
        Event.is_set_entry_vector = 1 ∧
    (allwinner_a83t_core_sleep ⟨0x80000100, true, 0⟩ ⟨4⟩ allwinner_a83t_idle_driver 1).2.count
        Event.mcpm_cpu_suspend = 1 ∧
    (allwinner_a83t_core_sleep ⟨0x80000100, true, 0⟩ ⟨4⟩ allwinner_a83t_idle_driver 1).2.count
        Event.mcpm_cpu_powered_up = 1 ∧
    (allwinner_a83t_core_sleep ⟨0x80000100, true, 0⟩ ⟨4⟩ allwinner_a83t_idle_driver 1).2.count
        Event.cpu_pm_exit = 1 := by
  decide

/-- C4 as amended: with the device record of logical core 0 (dev->cpu is 0) and index
1, on whatever core the affinity register names, the entry routine returns 1, its
calls are the register read, interrupt disable, one trivial wait and interrupt
enable, and none of the handshake routines is invoked. -/
theorem core_sleep_primary_core (c : Core) (dev : cpuidle_device) (drv : cpuidle_driver)
    (h : dev.cpu = 0) :
    (allwinner_a83t_core_sleep c dev drv 1).1 = 1 ∧
    (allwinner_a83t_core_sleep c dev drv 1).2 =
      [Event.read_cpuid_mpidr (read_cpuid_mpidr c), Event.local_irq_disable,
       Event.cpu_do_idle, Event.local_irq_enable] ∧
    (allwinner_a83t_core_sleep c dev drv 1).2.filter Event.entry_level =
      [Event.local_irq_disable, Event.cpu_do_idle, Event.local_irq_enable] ∧
    (allwinner_a83t_core_sleep c dev drv 1).2.count Event.cpu_pm_enter = 0 ∧
    (allwinner_a83t_core_sleep c dev drv 1).2.countP Event.is_cpu_suspend = 0 ∧
    (allwinner_a83t_core_sleep c dev drv 1).2.countP Event.is_callback = 0 ∧
    (allwinner_a83t_core_sleep c dev drv 1).2.countP Event.is_set_entry_vector = 0 ∧
    (allwinner_a83t_core_sleep c dev drv 1).2.count Event.mcpm_cpu_suspend = 0 ∧
    (allwinner_a83t_core_sleep c dev drv 1).2.count Event.mcpm_cpu_powered_up = 0 ∧
    (allwinner_a83t_core_sleep c dev drv 1).2.count Event.cpu_pm_exit = 0 := by
  simp [allwinner_a83t_core_sleep, h, Event.entry_level, Event.is_cpu_suspend,
    Event.is_callback, Event.is_set_entry_vector]

/-- Witness of C4 as amended: the device record of logical core 0, on core 0 of
cluster 0, with the canonical table. -/
theorem core_sleep_primary_core_witness :
    (allwinner_a83t_core_sleep ⟨0x80000000, true, 0⟩ ⟨0⟩ allwinner_a83t_idle_driver 1).2.filter
        Event.entry_level =
      [Event.local_irq_disable, Event.cpu_do_idle, Event.local_irq_enable] :=
  (core_sleep_primary_core ⟨0x80000000, true, 0⟩ ⟨0⟩ allwinner_a83t_idle_driver rfl).2.2.1

/-- C5 fails as stated: with the device record of core 1 and index 0 the entry
routine returns 0 and still runs the whole power-management handshake. -/
theorem core_sleep_index_zero_handshake :
    (allwinner_a83t_core_sleep ⟨0x80000001, true, 0⟩ ⟨1⟩ allwinner_a83t_idle_driver 0).1 = 0 ∧
    (allwinner_a83t_core_sleep ⟨0x80000001, true, 0⟩ ⟨1⟩ allwinner_a83t_idle_driver 0).2.filter
        Event.entry_level = handshake_calls ∧
    (allwinner_a83t_core_sleep ⟨0x80000001, true, 0⟩ ⟨1⟩ allwinner_a83t_idle_driver 0).2.count
        Event.cpu_pm_enter = 1 ∧
    (allwinner_a83t_core_sleep ⟨0x80000001, true, 0⟩ ⟨1⟩ allwinner_a83t_idle_driver 0).2.countP
        Event.is_cpu_suspend = 1 ∧
    (allwinner_a83t_core_sleep ⟨0x80000001, true, 0⟩ ⟨1⟩ allwinner_a83t_idle_driver 0).2.count
        Event.mcpm_cpu_powered_up = 1 ∧
    (allwinner_a83t_core_sleep ⟨0x80000001, true, 0⟩ ⟨1⟩ allwinner_a83t_idle_driver 0).2.count
        Event.cpu_pm_exit = 1 := by
  decide

/-- C5 as amended: with index 0 the entry routine returns 0 for every device record;
it makes no handshake call exactly when the device record is the one of core 0, and
runs the full handshake for every other device record. In the canonical table the
routine is the entry of state 1 only, state 0 being the WFI state. -/
theorem core_sleep_index_zero (c : Core) (dev : cpuidle_device) (drv : cpuidle_driver) :
    (allwinner_a83t_core_sleep c dev drv 0).1 = 0 ∧
    (allwinner_a83t_core_sleep c dev drv 0).2.filter Event.entry_level =
      (if dev.cpu = 0 then trivial_wait_calls else handshake_calls) ∧
    ((allwinner_a83t_core_sleep c dev drv 0).2.count Event.cpu_pm_enter = 0 ↔ dev.cpu = 0) ∧
    ((allwinner_a83t_core_sleep c dev drv 0).2.countP Event.is_cpu_suspend = 0 ↔ dev.cpu = 0) ∧
    ((allwinner_a83t_core_sleep c dev drv 0).2.count Event.mcpm_cpu_powered_up = 0 ↔
      dev.cpu = 0) ∧
    ((allwinner_a83t_core_sleep c dev drv 0).2.count Event.cpu_pm_exit = 0 ↔ dev.cpu = 0) ∧
    allwinner_a83t_idle_driver.states[0]? = some cpuidle_state.ARM_CPUIDLE_WFI_STATE ∧
    allwinner_a83t_idle_driver.states[1]? =
      some (cpuidle_state.init
        { enter := EnterFn.allwinner_a83t_core_sleep
          exit_latency := 3000
          target_residency := 10000
          power_usage := 500
          flags := [StateFlag.CPUIDLE_FLAG_TIMER_STOP]
          name := "C1"
          desc := "Core power down" }) ∧
    (allwinner_a83t_idle_driver.states.filter
        (fun st => st != cpuidle_state.ARM_CPUIDLE_WFI_STATE)).length = 1 := by
  by_cases h : dev.cpu = 0
  · simp [allwinner_a83t_core_sleep, h, Event.entry_level, Event.is_cpu_suspend,
      trivial_wait_calls, allwinner_a83t_idle_driver]
  · cases hp : c.power_lost <;>
      simp [allwinner_a83t_core_sleep, h, hp, cpu_suspend, SuspendFn.run,
        allwinner_a83t_core_sleep_finisher, mcpm_cpu_suspend, Event.entry_level,
        Event.is_cpu_suspend, handshake_calls, allwinner_a83t_idle_driver]

/-- C6: one run of the finisher makes exactly one resume-vector registration, keyed
by the core and cluster numbers derived from the affinity register and with
cpu_resume as address, and exactly one cluster-suspend request, the registration
strictly first; the same holds for the whole trace of the entry routine on a
non-primary core. -/
theorem set_vector_before_suspend (c : Core) (arg : Nat) (dev : cpuidle_device)
    (drv : cpuidle_driver) (idx : Int) (h : dev.cpu ≠ 0) :
    (allwinner_a83t_core_sleep_finisher c arg).2 =
      [Event.read_cpuid_mpidr (read_cpuid_mpidr c),
       Event.pr_info "CPU: %d CLS: %d FNC: %s: Core sleep suspend"
         (MPIDR_AFFINITY_LEVEL (read_cpuid_mpidr c) 0)
         (MPIDR_AFFINITY_LEVEL (read_cpuid_mpidr c) 1) "allwinner_a83t_core_sleep_finisher",
       Event.mcpm_set_entry_vector (MPIDR_AFFINITY_LEVEL (read_cpuid_mpidr c) 0)
         (MPIDR_AFFINITY_LEVEL (read_cpuid_mpidr c) 1) ResumeAddr.cpu_resume,
       Event.mcpm_cpu_suspend] ∧
    (allwinner_a83t_core_sleep_finisher c arg).2.countP Event.is_set_entry_vector = 1 ∧
    (allwinner_a83t_core_sleep_finisher c arg).2.countP Event.is_mcpm_cpu_suspend = 1 ∧
    strictly_before
      (Event.mcpm_set_entry_vector (MPIDR_AFFINITY_LEVEL (read_cpuid_mpidr c) 0)
        (MPIDR_AFFINITY_LEVEL (read_cpuid_mpidr c) 1) ResumeAddr.cpu_resume)
      Event.mcpm_cpu_suspend (allwinner_a83t_core_sleep_finisher c arg).2 ∧
    (allwinner_a83t_core_sleep c dev drv idx).2.countP Event.is_set_entry_vector = 1 ∧
    (allwinner_a83t_core_sleep c dev drv idx).2.countP Event.is_mcpm_cpu_suspend = 1 ∧
    strictly_before
      (Event.mcpm_set_entry_vector (MPIDR_AFFINITY_LEVEL (read_cpuid_mpidr c) 0)
        (MPIDR_AFFINITY_LEVEL (read_cpuid_mpidr c) 1) ResumeAddr.cpu_resume)
      Event.mcpm_cpu_suspend (allwinner_a83t_core_sleep c dev drv idx).2 := by
  refine ⟨?_, ?_, ?_, ⟨2, 3, by decide, ?_, ?_⟩, ?_, ?_, ⟨8, 9, by decide, ?_, ?_⟩⟩ <;>
    cases hp : c.power_lost <;>
    simp [allwinner_a83t_core_sleep, h, hp, cpu_suspend, SuspendFn.run,
      allwinner_a83t_core_sleep_finisher, mcpm_cpu_suspend, Event.is_set_entry_vector,
      Event.is_mcpm_cpu_suspend]

/-- Witness of C6: core 1 of cluster 1, device record of logical core 5. -/
theorem set_vector_before_suspend_witness :
    (allwinner_a83t_core_sleep ⟨0x80000101, true, 0⟩ ⟨5⟩ allwinner_a83t_idle_driver 1).2.countP
        Event.is_set_entry_vector = 1 ∧
    strictly_before (Event.mcpm_set_entry_vector 1 1 ResumeAddr.cpu_resume)
      Event.mcpm_cpu_suspend
      (allwinner_a83t_core_sleep ⟨0x80000101, true, 0⟩ ⟨5⟩ allwinner_a83t_idle_driver 1).2 :=
  have h := set_vector_before_suspend ⟨0x80000101, true, 0⟩ 0 ⟨5⟩ allwinner_a83t_idle_driver 1
    (by decide)
  ⟨h.2.2.2.2.1, h.2.2.2.2.2.2⟩

/-- C7: on a non-primary core (device record of a core other than 0) the entry routine
returns the index it was given and makes, in this order and once each, the calls
interrupt disable, cpu_pm_enter, cpu_suspend with the finisher as callback,
mcpm_cpu_powered_up, cpu_pm_exit, interrupt enable; this holds whether the finisher
returned 1 to the primitive (no power loss) or the core came back through the resume
vector with an arbitrary status. -/
theorem core_sleep_deep_handshake (c : Core) (dev : cpuidle_device) (drv : cpuidle_driver)
    (idx : Int) (h : dev.cpu ≠ 0) :
    (allwinner_a83t_core_sleep c dev drv idx).1 = idx ∧
    (cpu_suspend c 0 SuspendFn.allwinner_a83t_core_sleep_finisher).1 =
      (if c.power_lost then c.resume_status else 1) ∧
    (allwinner_a83t_core_sleep c dev drv idx).2 =
      [Event.read_cpuid_mpidr (read_cpuid_mpidr c),
       Event.local_irq_disable,
       Event.pr_info "CPU: %d CLS: %d FNC: %s: Core sleep"
         (MPIDR_AFFINITY_LEVEL (read_cpuid_mpidr c) 0)
         (MPIDR_AFFINITY_LEVEL (read_cpuid_mpidr c) 1) "allwinner_a83t_core_sleep",
       Event.cpu_pm_enter,
       Event.cpu_suspend 0 SuspendFn.allwinner_a83t_core_sleep_finisher,
       Event.callback SuspendFn.allwinner_a83t_core_sleep_finisher 0,
       Event.read_cpuid_mpidr (read_cpuid_mpidr c),
       Event.pr_info "CPU: %d CLS: %d FNC: %s: Core sleep suspend"
         (MPIDR_AFFINITY_LEVEL (read_cpuid_mpidr c) 0)
         (MPIDR_AFFINITY_LEVEL (read_cpuid_mpidr c) 1) "allwinner_a83t_core_sleep_finisher",
       Event.mcpm_set_entry_vector (MPIDR_AFFINITY_LEVEL (read_cpuid_mpidr c) 0)
         (MPIDR_AFFINITY_LEVEL (read_cpuid_mpidr c) 1) ResumeAddr.cpu_resume,
       Event.mcpm_cpu_suspend,
       Event.pr_info "CPU: %d CLS: %d FNC: %s: Power up"
         (MPIDR_AFFINITY_LEVEL (read_cpuid_mpidr c) 0)
         (MPIDR_AFFINITY_LEVEL (read_cpuid_mpidr c) 1) "allwinner_a83t_core_sleep",
       Event.mcpm_cpu_powered_up,
       Event.cpu_pm_exit,
       Event.local_irq_enable] ∧
    (allwinner_a83t_core_sleep c dev drv idx).2.filter Event.entry_level =
      [Event.local_irq_disable, Event.cpu_pm_enter,
       Event.cpu_suspend 0 SuspendFn.allwinner_a83t_core_sleep_finisher,
       Event.mcpm_cpu_powered_up, Event.cpu_pm_exit, Event.local_irq_enable] ∧
    (allwinner_a83t_core_sleep c dev drv idx).2.count Event.mcpm_cpu_powered_up = 1 ∧
    (allwinner_a83t_core_sleep c dev drv idx).2.count Event.cpu_do_idle = 0 := by
  cases hp : c.power_lost <;>
    simp [allwinner_a83t_core_sleep, h, hp, cpu_suspend, SuspendFn.run,
      allwinner_a83t_core_sleep_finisher, mcpm_cpu_suspend, Event.entry_level]

/-- Witness of C7: core 1 requests index 1 and the finisher returns 1 to the
primitive because power was not lost. -/
theorem core_sleep_deep_handshake_witness :
    (cpu_suspend ⟨0x80000001, false, 0⟩ 0 SuspendFn.allwinner_a83t_core_sleep_finisher).1 = 1 ∧
    (allwinner_a83t_core_sleep ⟨0x80000001, false, 0⟩ ⟨1⟩ allwinner_a83t_idle_driver 1).1 = 1 ∧
    (allwinner_a83t_core_sleep ⟨0x80000001, false, 0⟩ ⟨1⟩ allwinner_a83t_idle_driver 1).2.count
        Event.mcpm_cpu_powered_up = 1 :=
  have h := core_sleep_deep_handshake ⟨0x80000001, false, 0⟩ ⟨1⟩ allwinner_a83t_idle_driver 1
    (by decide)
  ⟨h.2.1, h.1, h.2.2.2.2.1⟩

theorem core_ok_iff (env : BootEnv) (c : Nat) :
    core_ok env c = true ↔
      env.kmemdup_ok c = true ∧ env.register_driver_ret c = 0 ∧
        env.kzalloc_ok c = true ∧ env.register_device_ret c = 0 := by
  simp [core_ok, and_assoc]

theorem registered_boot : Registered 0 Kernel.boot := by
  simp [Registered, Kernel.boot]

theorem registered_log (n : Nat) (k : Kernel) (e : BootEvent) (h : Registered n k) :
    Registered n (k.log e) := h

theorem probe_cpu_ok (env : BootEnv) (n : Nat) (k : Kernel) (h : Registered n k)
    (hok : core_ok env n = true) :
    (probe_cpu env n k).1 = none ∧ Registered (n + 1) (probe_cpu env n k).2 := by
  obtain ⟨h1, h2, h3, h4⟩ := (core_ok_iff env n).1 hok
  obtain ⟨hn, hd, hv, hm, hf, h0⟩ := h
  simp [probe_cpu, kmemdup, h1, set_cpumask, cpuidle_register_driver, h2, kzalloc, h3,
      set_dev_cpu, cpuidle_register_device, h4, driver_mask, device_cpu, Registered, Kernel.log]
  rw [hn]
  refine ⟨by omega, ?_, ?_, ?_, ?_, ?_⟩
  · intro c
    rw [hd c]
    simp only [cpumask_of, List.mem_singleton]
    split_ifs <;> first | rfl | omega | (subst_vars; rfl)
  · intro c
    rw [hv c]
    split_ifs <;> first | rfl | omega | (subst_vars; rfl)
  · intro c hc
    rcases Nat.lt_succ_iff_lt_or_eq.1 hc with hlt | rfl
    · have := hm c hlt
      constructor
      · rw [if_neg (by omega), if_neg (by omega), if_neg (by omega), if_neg (by omega)]
        exact this.1
      · rw [if_neg (by omega), if_neg (by omega), if_neg (by omega), if_neg (by omega)]
        exact this.2
    · constructor
      · rw [if_neg (by omega), if_neg (by omega), if_pos rfl]
        rfl
      · rw [if_pos rfl]
  · intro a ha
    rw [if_neg (by omega), if_neg (by omega), if_neg (by omega), if_neg (by omega)]
    exact hf a (by omega)
  · rw [if_neg (by omega), if_neg (by omega)]
    exact h0

theorem for_each_ok (env : BootEnv) :
    ∀ (n cpu : Nat) (k : Kernel), Registered cpu k →
      (∀ c, cpu ≤ c → c < cpu + n → core_ok env c = true) →
      (for_each_possible_cpu env n cpu k).1 = 0 ∧
        Registered (cpu + n) (for_each_possible_cpu env n cpu k).2 := by
  intro n
  induction n with
  | zero =>
    intro cpu k hk _
    exact ⟨rfl, registered_log _ _ _ hk⟩
  | succ n ih =>
    intro cpu k hk hall
    have hp := probe_cpu_ok env cpu k hk (hall cpu (Nat.le_refl _) (by omega))
    have e : probe_cpu env cpu k = (none, (probe_cpu env cpu k).2) := Prod.ext hp.1 rfl
    have step : for_each_possible_cpu env (n + 1) cpu k =
        for_each_possible_cpu env n (cpu + 1) (probe_cpu env cpu k).2 := by
      rw [for_each_possible_cpu, e]
    rw [step]
    have := ih (cpu + 1) _ hp.2 (fun c h1 h2 => hall c (by omega) (by omega))
    rwa [show cpu + 1 + n = cpu + (n + 1) by omega] at this

theorem probe_cpu_code (env : BootEnv) (cpu : Nat) (k : Kernel) :
    (probe_cpu env cpu k).1 = if core_ok env cpu = true then none else some (step_code env cpu) := by
  cases h1 : env.kmemdup_ok cpu <;> by_cases h2 : env.register_driver_ret cpu = 0 <;>
    cases h3 : env.kzalloc_ok cpu <;> by_cases h4 : env.register_device_ret cpu = 0 <;>
    simp [probe_cpu, kmemdup, set_cpumask, cpuidle_register_driver, kzalloc, set_dev_cpu,
      cpuidle_register_device, core_ok, step_code, h1, h2, h3, h4]

theorem step_code_ne_zero (env : BootEnv) (c : Nat) (h : core_ok env c = false) :
    step_code env c ≠ 0 := by
  cases h1 : env.kmemdup_ok c <;> by_cases h2 : env.register_driver_ret c = 0 <;>
    cases h3 : env.kzalloc_ok c <;> by_cases h4 : env.register_device_ret c = 0 <;>
    simp_all [core_ok, step_code, ENOMEM]

theorem for_each_code (env : BootEnv) :
    ∀ (n cpu : Nat) (k : Kernel) (j : Nat), cpu ≤ j → j < cpu + n →
      (∀ c, cpu ≤ c → c < j → core_ok env c = true) → core_ok env j = false →
      (for_each_possible_cpu env n cpu k).1 = step_code env j := by
  intro n
  induction n with
  | zero => intro cpu k j h1 h2; omega
  | succ n ih =>
    intro cpu k j h1 h2 hprev hj
    have hc := probe_cpu_code env cpu k
    rcases Nat.eq_or_lt_of_le h1 with rfl | hlt
    · rw [hj] at hc
      have e : probe_cpu env cpu k = (some (step_code env cpu), (probe_cpu env cpu k).2) :=
        Prod.ext (by simpa using hc) rfl
      rw [for_each_possible_cpu, e]
    · rw [hprev cpu (Nat.le_refl _) hlt] at hc
      have e : probe_cpu env cpu k = (none, (probe_cpu env cpu k).2) :=
        Prod.ext (by simpa using hc) rfl
      rw [for_each_possible_cpu, e]
      exact ih (cpu + 1) _ j hlt (by omega) (fun c h3 h4 => hprev c (by omega) h4) hj

theorem for_each_zero (env : BootEnv) :
    ∀ (n cpu : Nat) (k : Kernel), (∀ c, cpu ≤ c → c < cpu + n → core_ok env c = true) →
      (for_each_possible_cpu env n cpu k).1 = 0 := by
  intro n
  induction n with
  | zero => intro cpu k _; rfl
  | succ n ih =>
    intro cpu k hall
    have hc := probe_cpu_code env cpu k
    rw [hall cpu (Nat.le_refl _) (by omega)] at hc
    have e : probe_cpu env cpu k = (none, (probe_cpu env cpu k).2) :=
      Prod.ext (by simpa using hc) rfl
    rw [for_each_possible_cpu, e]
    exact ih (cpu + 1) _ (fun c h1 h2 => hall c (by omega) (by omega))

theorem first_failing_core (env : BootEnv) (n : Nat)
    (h : ¬ ∀ c, c < n → core_ok env c = true) :
    ∃ j, j < n ∧ (∀ c, c < j → core_ok env c = true) ∧ core_ok env j = false := by
  have hex : ∃ j, j < n ∧ core_ok env j = false := by
    by_contra hne
    apply h
    intro c hc
    by_contra hcf
    exact hne ⟨c, hc, by simpa using hcf⟩
  refine ⟨Nat.find hex, (Nat.find_spec hex).1, ?_, (Nat.find_spec hex).2⟩
  intro c hc
  by_contra hcf
  exact Nat.find_min hex hc ⟨by have := (Nat.find_spec hex).1; omega, by simpa using hcf⟩

theorem filterMap_slots (n : Nat) (f : Nat → Option Nat) (g : Nat → Nat)
    (h : ∀ c, c < n → f c = some (g c)) :
    (List.range n).filterMap (fun c => (f c).map (fun p => (c, p))) =
      (List.range n).map (fun c => (c, g c)) := by
  rw [← List.filterMap_eq_map]
  apply List.filterMap_congr
  intro c hc
  simp [h c (List.mem_range.1 hc)]

/-- C2: when every step succeeds for every possible core, the probe returns 0, the
registry holds exactly one driver and one device per possible core, the device
record of core c names c, and the driver of core c is a copy of the canonical table
(state_count 2, safe_state_index 0) whose affinity mask is exactly core c. -/
theorem probe_success (env : BootEnv)
    (h : ∀ c, c < env.nr_cpu_ids → core_ok env c = true) :
    (allwinner_a83t_cpuidle_probe env Kernel.boot).1 = 0 ∧
    registered_drivers env.nr_cpu_ids (allwinner_a83t_cpuidle_probe env Kernel.boot).2 =
      (List.range env.nr_cpu_ids).map (fun c => (c, 2 * c + 1)) ∧
    registered_devices env.nr_cpu_ids (allwinner_a83t_cpuidle_probe env Kernel.boot).2 =
      (List.range env.nr_cpu_ids).map (fun c => (c, 2 * c + 2)) ∧
    (∀ c, c < env.nr_cpu_ids →
      (allwinner_a83t_cpuidle_probe env Kernel.boot).2.mem (2 * c + 1) =
        some (Obj.drv { allwinner_a83t_idle_driver with cpumask := some [c] }) ∧
      (allwinner_a83t_cpuidle_probe env Kernel.boot).2.mem (2 * c + 2) =
        some (Obj.dev { cpu := c }) ∧
      driver_mask (allwinner_a83t_cpuidle_probe env Kernel.boot).2 (2 * c + 1) = [c]) ∧
    (∀ c, env.nr_cpu_ids ≤ c →
      (allwinner_a83t_cpuidle_probe env Kernel.boot).2.cpuidle_drivers c = none ∧
      (allwinner_a83t_cpuidle_probe env Kernel.boot).2.cpuidle_devices c = none) ∧
    allwinner_a83t_idle_driver.state_count = 2 ∧
    allwinner_a83t_idle_driver.safe_state_index = 0 := by
  have hr := for_each_ok env env.nr_cpu_ids 0
    ((Kernel.boot.log (BootEvent.mcpm_is_available env.mcpm_available)).log
      (BootEvent.pr_info "MCPM availability: %d" (if env.mcpm_available then 1 else 0)))
    (registered_log _ _ _ (registered_log _ _ _ registered_boot))
    (fun c _ hc => h c (by omega))
  rw [Nat.zero_add] at hr
  change (allwinner_a83t_cpuidle_probe env Kernel.boot).1 = 0 ∧
    Registered env.nr_cpu_ids (allwinner_a83t_cpuidle_probe env Kernel.boot).2 at hr
  obtain ⟨hret, hn, hd, hv, hm, hf, h0⟩ := hr
  refine ⟨hret, ?_, ?_, ?_, ?_, rfl, rfl⟩
  · exact filterMap_slots _ _ _ (fun c hc => by rw [hd c, if_pos hc])
  · exact filterMap_slots _ _ _ (fun c hc => by rw [hv c, if_pos hc])
  · intro c hc
    have := hm c hc
    refine ⟨this.1, this.2, ?_⟩
    rw [driver_mask, this.1]
    rfl
  · intro c hc
    rw [hd c, hv c, if_neg (by omega), if_neg (by omega)]
    exact ⟨rfl, rfl⟩

/-- Witness of C2: four possible cores, every step succeeds: four drivers and four
devices, one per core. -/
theorem probe_success_witness :
    (allwinner_a83t_cpuidle_probe (BootEnv.all_ok 4) Kernel.boot).1 = 0 ∧
    registered_drivers 4 (allwinner_a83t_cpuidle_probe (BootEnv.all_ok 4) Kernel.boot).2 =
      [(0, 1), (1, 3), (2, 5), (3, 7)] ∧
    registered_devices 4 (allwinner_a83t_cpuidle_probe (BootEnv.all_ok 4) Kernel.boot).2 =
      [(0, 2), (1, 4), (2, 6), (3, 8)] :=
  have h := probe_success (BootEnv.all_ok 4) (fun _ _ => rfl)
  ⟨h.1, h.2.1, h.2.2.1⟩

/-- C3: the probe returns 0 exactly when every step succeeds for every possible core;
otherwise, with k the first core that has a failing step, it returns the code of the
first failing step of k: the allocation-failure code when the clone or the device
record cannot be allocated, and the very code the idle framework answered when it
rejects the driver or the device. The code is never 0 in that case, the rollback
leaves it as it is. -/
theorem probe_error_code (env : BootEnv) :
    ((allwinner_a83t_cpuidle_probe env Kernel.boot).1 = 0 ↔
      ∀ c, c < env.nr_cpu_ids → core_ok env c = true) ∧
    ∀ k, k < env.nr_cpu_ids → (∀ c, c < k → core_ok env c = true) → core_ok env k = false →
      (allwinner_a83t_cpuidle_probe env Kernel.boot).1 ≠ 0 ∧
      (env.kmemdup_ok k = false →
        (allwinner_a83t_cpuidle_probe env Kernel.boot).1 = -ENOMEM) ∧
      (env.kmemdup_ok k = true → env.register_driver_ret k ≠ 0 →
        (allwinner_a83t_cpuidle_probe env Kernel.boot).1 = env.register_driver_ret k) ∧
      (env.kmemdup_ok k = true → env.register_driver_ret k = 0 → env.kzalloc_ok k = false →
        (allwinner_a83t_cpuidle_probe env Kernel.boot).1 = -ENOMEM) ∧
      (env.kmemdup_ok k = true → env.register_driver_ret k = 0 → env.kzalloc_ok k = true →
        (allwinner_a83t_cpuidle_probe env Kernel.boot).1 = env.register_device_ret k) := by
  have key : ∀ k, k < env.nr_cpu_ids → (∀ c, c < k → core_ok env c = true) →
      core_ok env k = false →
      (allwinner_a83t_cpuidle_probe env Kernel.boot).1 = step_code env k := by
    intro k hk hprev hfail
    exact for_each_code env env.nr_cpu_ids 0 _ k (Nat.zero_le _) (by omega)
      (fun c _ hc => hprev c hc) hfail
  constructor
  · constructor
    · intro hz
      by_contra hne
      obtain ⟨j, hj, hprev, hfail⟩ := first_failing_core env env.nr_cpu_ids hne
      exact step_code_ne_zero env j hfail ((key j hj hprev hfail).symm.trans hz)
    · intro hall
      exact for_each_zero env env.nr_cpu_ids 0 _ (fun c _ hc => hall c (by omega))
  · intro k hk hprev hfail
    rw [key k hk hprev hfail]
    refine ⟨step_code_ne_zero env k hfail, ?_, ?_, ?_, ?_⟩
    · intro h1; simp [step_code, h1]
    · intro h1 h2; simp [step_code, h1, h2]
    · intro h1 h2 h3; simp [step_code, h1, h2, h3]
    · intro h1 h2 h3; simp [step_code, h1, h2, h3]

/-- Witness of C3: four cores, the idle framework rejects the device of core 2 with
code -16, and -16 is what the probe returns. -/
theorem probe_error_code_witness :
    (allwinner_a83t_cpuidle_probe (BootEnv.failing 4 2 Step.register_device (-16))
      Kernel.boot).1 = -16 :=
  ((probe_error_code (BootEnv.failing 4 2 Step.register_device (-16))).2 2 (by decide)
    (by decide) (by decide)).2.2.2.2 (by decide) (by decide) (by decide)

/-- C1 does not hold on the code: with two cores and the device of core 1 rejected by
the idle framework (code -16), the probe returns -16 and the driver of core 1, the
clone at address 3 with mask core 1, is still registered; the rollback never
unregisters it. -/
theorem probe_leaves_driver_registered :
    (allwinner_a83t_cpuidle_probe (BootEnv.failing 2 1 Step.register_device (-16))
      Kernel.boot).1 = -16 ∧
    registered_drivers 2 (allwinner_a83t_cpuidle_probe
      (BootEnv.failing 2 1 Step.register_device (-16)) Kernel.boot).2 = [(1, 3)] ∧
    registered_devices 2 (allwinner_a83t_cpuidle_probe
      (BootEnv.failing 2 1 Step.register_device (-16)) Kernel.boot).2 = [] ∧
    driver_mask (allwinner_a83t_cpuidle_probe
      (BootEnv.failing 2 1 Step.register_device (-16)) Kernel.boot).2 3 = [1] ∧
    (allwinner_a83t_cpuidle_probe (BootEnv.failing 2 1 Step.register_device (-16))
      Kernel.boot).2.trace =
      [BootEvent.mcpm_is_available true,
       BootEvent.pr_info "MCPM availability: %d" 1,
       BootEvent.kmemdup (some 1),
       BootEvent.cpuidle_register_driver 1 0,
       BootEvent.kzalloc (some 2),
       BootEvent.cpuidle_register_device 2 0,
       BootEvent.pr_info "Successfully register idle driver for CPU%d\n" 0,
       BootEvent.kmemdup (some 3),
       BootEvent.cpuidle_register_driver 3 0,
       BootEvent.kzalloc (some 4),
       BootEvent.cpuidle_register_device 4 (-16),
       BootEvent.pr_err "Failed to register cpuidle device for CPU %d\n" 1,
       BootEvent.per_cpu_cpuidle_devices 0 (some 2),
       BootEvent.cpuidle_unregister_device (some 2),
       BootEvent.kfree (some 2),
       BootEvent.cpuidle_get_driver (some 1),
       BootEvent.cpuidle_unregister_driver (some 1),
       BootEvent.kfree (some 1)] := by
  decide

/-- C8 does not hold on the code: with four cores and the allocation of the device
record of core 2 failing, the probe returns the allocation-failure code, but the
clone of core 2 (address 5) is neither unregistered nor released, and the clone of
core 1 (address 3) is not released either. -/
theorem probe_keeps_clone_of_failing_core :
    (allwinner_a83t_cpuidle_probe (BootEnv.failing 4 2 Step.device_record 0)
      Kernel.boot).1 = -ENOMEM ∧
    live_blocks (allwinner_a83t_cpuidle_probe (BootEnv.failing 4 2 Step.device_record 0)
      Kernel.boot).2 =
      [(3, Obj.drv { allwinner_a83t_idle_driver with cpumask := some [1] }),
       (5, Obj.drv { allwinner_a83t_idle_driver with cpumask := some [2] })] ∧
    registered_drivers 4 (allwinner_a83t_cpuidle_probe
      (BootEnv.failing 4 2 Step.device_record 0) Kernel.boot).2 = [(1, 3), (2, 5)] ∧
    BootEvent.kmemdup (some 5) ∈ (allwinner_a83t_cpuidle_probe
      (BootEnv.failing 4 2 Step.device_record 0) Kernel.boot).2.trace ∧
    BootEvent.kfree (some 5) ∉ (allwinner_a83t_cpuidle_probe
      (BootEnv.failing 4 2 Step.device_record 0) Kernel.boot).2.trace ∧
    BootEvent.cpuidle_unregister_driver (some 5) ∉ (allwinner_a83t_cpuidle_probe
      (BootEnv.failing 4 2 Step.device_record 0) Kernel.boot).2.trace := by
  decide

/-- C9 does not hold on the code: with three cores, the initcall on core 0 and the
clone of core 2 failing to allocate, cores 0 and 1 hold the clones at addresses 1
and 3; the rollback visits core 1 then core 0, releases the device of each, but for
core 1 it fetches, unregisters and releases the clone at address 1, the driver of
core 0, and for core 0 it fetches NULL; the driver of core 1 stays registered. -/
theorem rollback_fetches_driver_of_running_core :
    driver_mask (allwinner_a83t_cpuidle_probe (BootEnv.all_ok 2) Kernel.boot).2 1 = [0] ∧
    driver_mask (allwinner_a83t_cpuidle_probe (BootEnv.all_ok 2) Kernel.boot).2 3 = [1] ∧
    (allwinner_a83t_cpuidle_probe (BootEnv.failing 3 2 Step.clone 0) Kernel.boot).2.trace =
      [BootEvent.mcpm_is_available true,
       BootEvent.pr_info "MCPM availability: %d" 1,
       BootEvent.kmemdup (some 1),
       BootEvent.cpuidle_register_driver 1 0,
       BootEvent.kzalloc (some 2),
       BootEvent.cpuidle_register_device 2 0,
       BootEvent.pr_info "Successfully register idle driver for CPU%d\n" 0,
       BootEvent.kmemdup (some 3),
       BootEvent.cpuidle_register_driver 3 0,
       BootEvent.kzalloc (some 4),
       BootEvent.cpuidle_register_device 4 0,
       BootEvent.pr_info "Successfully register idle driver for CPU%d\n" 1,
       BootEvent.kmemdup none,
       BootEvent.per_cpu_cpuidle_devices 1 (some 4),
       BootEvent.cpuidle_unregister_device (some 4),
       BootEvent.kfree (some 4),
       BootEvent.cpuidle_get_driver (some 1),
       BootEvent.cpuidle_unregister_driver (some 1),
       BootEvent.kfree (some 1),
       BootEvent.per_cpu_cpuidle_devices 0 (some 2),
       BootEvent.cpuidle_unregister_device (some 2),
       BootEvent.kfree (some 2),
       BootEvent.cpuidle_get_driver none,
       BootEvent.cpuidle_unregister_driver none,
       BootEvent.kfree none] ∧
    registered_drivers 3 (allwinner_a83t_cpuidle_probe (BootEnv.failing 3 2 Step.clone 0)
      Kernel.boot).2 = [(1, 3)] := by
  decide

end A83t
